import Mathlib

/-
Verification of the mongodb_query Ansible module
(src/database/misc/mongodb_query.py).

The module is embedded shallowly: the sort normalization helper
_fix_sort_parameter and the main entry point are translated into pure
Lean functions over an explicit outcome type.  Behavior of external
collaborators (the AnsibleModule argument checker, the pymongo driver,
and the bson json_util serializer) is modelled from their documented
semantics where the claims depend on it; each such definition carries a
doc comment saying so.  The import block at the top of the module is
modelled statement by statement, with the Python semantics that a
failing import statement leaves every name bound by earlier statements
in place.
-/

/-- Direction token supplied in one entry of the sort parameter.  The
Python value stored at item[1] is either a string or, erroneously, a
non-string value such as an int. -/
inductive SortTok where
  | str (s : String)
  | int (n : Int)
deriving DecidableEq, Repr

/-- Outcome of running a fragment of the Python module: a normal value,
a structured module.fail_json exit (which terminates the process with a
failure report), or an unhandled Python exception identified by its
class name. -/
inductive PyOutcome (α : Type) where
  | ok (a : α)
  | failJson (msg : String)
  | pyError (exc : String)
deriving DecidableEq, Repr

/-- What the Python environment provides to the import block at lines
117 to 132: whether the bson package (line 118) and the pymongo package
(lines 119 to 123 and 126) are importable at all, and whether pymongo
carries the modern MongoClient class (2.4 and newer, line 123) and the
legacy Connection class (line 126). -/
structure PyEnv where
  bson_available : Bool
  pymongo_available : Bool
  has_MongoClient : Bool
  has_Connection : Bool

/-- A realizable environment: the pymongo package itself imports bson,
so pymongo cannot be importable when bson is not. -/
def PyEnv.realizable (env : PyEnv) : Bool :=
  !env.pymongo_available || env.bson_available

/-- Which names the import block left bound, and the value of the
pymongo_found flag it set (lines 124 to 132). -/
structure ImportState where
  json_util_bound : Bool
  ascending_bound : Bool
  descending_bound : Bool
  connectionFailure_bound : Bool
  operationFailure_bound : Bool
  mongoClient_bound : Bool
  pymongo_found : Bool

/-- Runs the import block (lines 117 to 132) in the given environment,
with the Python semantics that a failing import statement leaves every
name bound by the earlier statements in place: line 118 binds json_util,
line 119 the two constants, lines 120 and 121 the two exception types,
line 123 MongoClient; the first unavailable name aborts the block there,
and the except arm then tries the legacy Connection import (line 126),
setting pymongo_found to true exactly when some import path bound a
client class. -/
def importState (env : PyEnv) : ImportState :=
  if env.bson_available = false then
    { json_util_bound := false, ascending_bound := false, descending_bound := false,
      connectionFailure_bound := false, operationFailure_bound := false,
      mongoClient_bound := env.pymongo_available && env.has_Connection,
      pymongo_found := env.pymongo_available && env.has_Connection }
  else if env.pymongo_available = false then
    { json_util_bound := true, ascending_bound := false, descending_bound := false,
      connectionFailure_bound := false, operationFailure_bound := false,
      mongoClient_bound := false, pymongo_found := false }
  else if env.has_MongoClient = false then
    { json_util_bound := true, ascending_bound := true, descending_bound := true,
      connectionFailure_bound := true, operationFailure_bound := true,
      mongoClient_bound := env.has_Connection, pymongo_found := env.has_Connection }
  else
    { json_util_bound := true, ascending_bound := true, descending_bound := true,
      connectionFailure_bound := true, operationFailure_bound := true,
      mongoClient_bound := true, pymongo_found := true }

/-- Environment with a modern pymongo (2.4 or newer): every import of
the first block succeeds. -/
def modernEnv : PyEnv :=
  { bson_available := true, pymongo_available := true,
    has_MongoClient := true, has_Connection := true }

/-- The PyMongo 2.2 environment the fallback at line 126 targets: bson
and pymongo import fine, MongoClient does not exist yet, Connection
does. -/
def legacyEnv : PyEnv :=
  { bson_available := true, pymongo_available := true,
    has_MongoClient := false, has_Connection := true }

/-- Environment without the driver: neither bson nor pymongo can
be imported. -/
def absentEnv : PyEnv :=
  { bson_available := false, pymongo_available := false,
    has_MongoClient := false, has_Connection := false }

/-- Import state after a fully successful modern import. -/
def modernState : ImportState := importState modernEnv

/-- Import state after the PyMongo 2.2 fallback: only the line-123
MongoClient import failed, so json_util, the constants and the exception
types stay bound, Connection is bound as MongoClient, and pymongo_found
is true. -/
def legacyState : ImportState := importState legacyEnv

/-- Import state when the driver is absent: nothing bound,
pymongo_found false. -/
def absentState : ImportState := importState absentEnv

/-- Value of the pymongo constant ASCENDING. -/
def ASCENDING : Int := 1

/-- Value of the pymongo constant DESCENDING. -/
def DESCENDING : Int := -1

/-- Evaluating the name ASCENDING at lines 148: yields the constant when
the import block bound it, and raises NameError otherwise. -/
def nameASCENDING (st : ImportState) : PyOutcome SortTok :=
  if st.ascending_bound then .ok (.int ASCENDING) else .pyError "NameError"

/-- Evaluating the name DESCENDING at line 150: yields the constant when
the import block bound it, and raises NameError otherwise. -/
def nameDESCENDING (st : ImportState) : PyOutcome SortTok :=
  if st.descending_bound then .ok (.int DESCENDING) else .pyError "NameError"

/-- Uppercasing as done by the Python str.upper method on ASCII text. -/
def upperStr (s : String) : String := String.mk (s.data.map Char.toUpper)

/-- The Python expression item[1].upper(): uppercases a string, and
raises AttributeError when item[1] is not a string (an int has no upper
attribute). -/
def pyUpper : SortTok → PyOutcome String
  | .str s => .ok (upperStr s)
  | .int _ => .pyError "AttributeError"

/-- Text interpolated for the offending token by str.format in the
fail_json message of _fix_sort_parameter (line 152). -/
def tokenText : SortTok → String
  | .str s => s
  | .int n => toString n

/-- The fail_json message built at line 152, carrying the original
(pre-uppercasing) offending token. -/
def invalidSortMsg (tok : SortTok) : String :=
  "Invalid Sort parameter [" ++ tokenText tok ++ "]. It must be either ASCENDING or DESCENDING"

/-- The loop body of _fix_sort_parameter (lines 143 to 152) over the
items of a non-null sort parameter: each direction token is uppercased,
compared against ASCENDING and DESCENDING, and replaced by the pymongo
constant; any other token triggers fail_json with the offending literal
token, ending the run at the first bad item. -/
def fixSortItems (st : ImportState) : List (String × SortTok) → PyOutcome (List (String × SortTok))
  | [] => .ok []
  | (f, tok) :: rest =>
    match pyUpper tok with
    | .pyError e => .pyError e
    | .failJson m => .failJson m
    | .ok u =>
      if u = "ASCENDING" then
        match nameASCENDING st with
        | .pyError e => .pyError e
        | .failJson m => .failJson m
        | .ok a =>
          match fixSortItems st rest with
          | .ok tail => .ok ((f, a) :: tail)
          | .failJson m => .failJson m
          | .pyError e => .pyError e
      else if u = "DESCENDING" then
        match nameDESCENDING st with
        | .pyError e => .pyError e
        | .failJson m => .failJson m
        | .ok d =>
          match fixSortItems st rest with
          | .ok tail => .ok ((f, d) :: tail)
          | .failJson m => .failJson m
          | .pyError e => .pyError e
      else .failJson (invalidSortMsg tok)

/-- The function _fix_sort_parameter (lines 140 to 154): a null sort
parameter is returned unchanged; otherwise every item is normalized by
the loop above. -/
def _fix_sort_parameter (st : ImportState) :
    Option (List (String × SortTok)) → PyOutcome (Option (List (String × SortTok)))
  | none => .ok none
  | some items =>
    match fixSortItems st items with
    | .ok out => .ok (some out)
    | .failJson m => .failJson m
    | .pyError e => .pyError e

/-- A BSON-like document value as held by the driver: JSON-native
scalars plus the database-native extended scalar ObjectId (carried as
its hex text), with nested arrays and documents. -/
inductive BVal where
  | str (s : String)
  | int (n : Int)
  | bool (b : Bool)
  | oid (hex : String)
  | arr (elems : List BVal)
  | doc (fields : List (String × BVal))

/-- A plain JSON value, the target of the extended JSON encoding. -/
inductive JVal where
  | str (s : String)
  | int (n : Int)
  | bool (b : Bool)
  | arr (elems : List JVal)
  | obj (fields : List (String × JVal))

mutual

/-- Modelled from the documented tagged encoding of bson.json_util
(the serializer imported at line 118): an ObjectId is emitted as the
tagged object with single key dollar-oid holding the hex text; other
values map structurally. -/
def encodeExt : BVal → JVal
  | .str s => .str s
  | .int n => .int n
  | .bool b => .bool b
  | .oid h => .obj [("$oid", .str h)]
  | .arr xs => .arr (encodeExtList xs)
  | .doc fs => .obj (encodeExtFields fs)

/-- Elementwise extended JSON encoding of a list of values.  This also
models how json_util.dumps materializes any iterable (in particular the
find cursor at line 195) into a JSON array: its recursive converter
turns every iterable into a list before serializing. -/
def encodeExtList : List BVal → List JVal
  | [] => []
  | v :: vs => encodeExt v :: encodeExtList vs

/-- Fieldwise extended JSON encoding of a document field list. -/
def encodeExtFields : List (String × BVal) → List (String × JVal)
  | [] => []
  | (k, v) :: fs => (k, encodeExt v) :: encodeExtFields fs

end

/-- Recognizer for the tagged ObjectId form used by the extended JSON
decoder: an object whose only field is the dollar-oid key with a string
value. -/
def isOidForm : List (String × JVal) → Option String
  | [kv] =>
    match kv with
    | (k, JVal.str h) => if k = "$oid" then some h else none
    | _ => none
  | _ => none

mutual

/-- Modelled from the documented extended JSON decoder of
bson.json_util: an object of the tagged ObjectId form is turned back
into an ObjectId; everything else maps structurally. -/
def decodeExt : JVal → BVal
  | .str s => .str s
  | .int n => .int n
  | .bool b => .bool b
  | .arr xs => .arr (decodeExtList xs)
  | .obj fs =>
    match isOidForm fs with
    | some h => .oid h
    | none => .doc (decodeExtFields fs)

/-- Elementwise extended JSON decoding of a list. -/
def decodeExtList : List JVal → List BVal
  | [] => []
  | v :: vs => decodeExt v :: decodeExtList vs

/-- Fieldwise extended JSON decoding of an object field list. -/
def decodeExtFields : List (String × JVal) → List (String × BVal)
  | [] => []
  | (k, v) :: fs => (k, decodeExt v) :: decodeExtFields fs

end

/-- A literal document field list does not itself spell the reserved
tagged ObjectId form (single dollar-oid key with string value). -/
def notOidShape : List (String × BVal) → Bool
  | [(k, BVal.str _)] => k != "$oid"
  | _ => true

mutual

/-- Well-formedness of a database value for lossless serialization: no
literal document anywhere inside it spells the reserved tagged ObjectId
form, which the decoder necessarily reads back as an ObjectId. -/
def wfB : BVal → Bool
  | .str _ => true
  | .int _ => true
  | .bool _ => true
  | .oid _ => true
  | .arr xs => wfListB xs
  | .doc fs => notOidShape fs && wfFieldsB fs

/-- Well-formedness of every value in a list. -/
def wfListB : List BVal → Bool
  | [] => true
  | v :: vs => wfB v && wfListB vs

/-- Well-formedness of every value in a document field list. -/
def wfFieldsB : List (String × BVal) → Bool
  | [] => true
  | (_, v) :: fs => wfB v && wfFieldsB fs

end

/-- The module parameters after the argument spec defaults (lines 161 to
173) have been applied: connection_string, query, projection, skip,
limit and sort have defaults, while database and collection are required
and therefore may still be absent when the caller omitted them. -/
structure ModuleParams where
  connection_string : String := "mongodb://localhost/"
  database : Option String
  collection : Option String
  query : List (String × BVal) := []
  projection : Option (List (String × Bool)) := none
  skip : Nat := 0
  limit : Nat := 0
  sort : Option (List (String × SortTok)) := none

/-- Names of the required arguments that were not supplied, in argument
spec order. -/
def missingRequired (p : ModuleParams) : List String :=
  (if p.database.isNone then ["database"] else []) ++
    (if p.collection.isNone then ["collection"] else [])

/-- Modelled from the documented behavior of the external AnsibleModule
runtime constructed at lines 161 to 173: a parameter declared with
required set to true fails validation with fail_json when it is absent;
a supplied value, even an empty string, satisfies the presence check.
This runs inside the AnsibleModule constructor, before any line of main
after it. -/
def checkRequiredArguments (p : ModuleParams) : PyOutcome Unit :=
  match missingRequired p with
  | [] => .ok ()
  | ms => .failJson ("missing required arguments: " ++ String.intercalate "," ms)

/-- Outcome of the MongoClient connection attempt at line 188, as
produced by the external driver: success, or a ConnectionFailure
exception carrying the driver message. -/
inductive ConnOutcome where
  | ok
  | connectionFailure (msg : String)
deriving DecidableEq, Repr

/-- Outcome of the find call at lines 189 to 193, as produced by the
external driver once the database and collection objects exist: a cursor
over the matched documents in result order, a ConnectionFailure raised
during the query, or an OperationFailure (for example a malformed filter
or a server-side query error).  The client-side InvalidName error the
driver raises for an empty database or collection name is modelled
separately, before this outcome is consulted, because the name lookup at
line 189 happens before the find call runs. -/
inductive FindOutcome where
  | ok (docs : List BVal)
  | connectionFailure (msg : String)
  | operationFailure (msg : String)

/-- Observable result of one module invocation: the serialized envelope
printed to standard output together with the exit code (the success path
at lines 194 to 196), a structured fail_json report (nonzero exit), or
an unhandled Python exception (traceback, no structured report). -/
inductive MainResult where
  | success (stdout : JVal) (exitCode : Nat)
  | failed (msg : String)
  | crashed (exc : String)

/-- The envelope built at line 194 and serialized by json_util.dumps at
line 195: the converter of json_util materializes the cursor iterable
into a JSON array, so the printed document is changed false paired with
the fully materialized, extended-JSON encoded result sequence. -/
def envelope (docs : List BVal) : JVal :=
  .obj [("changed", .bool false), ("result", .arr (encodeExtList docs))]

/-- An exception exc carrying message msg propagating from the try block
to the except clause at line 198.  Python evaluates the name
ConnectionFailure there first: when it is unbound, a NameError replaces
the original exception; when the exception is a ConnectionFailure it is
caught and reported with fail_json (line 199); any other exception
propagates unhandled. -/
def exceptClause (st : ImportState) (exc : String) (msg : String) : MainResult :=
  if st.connectionFailure_bound = false then .crashed "NameError"
  else if exc = "ConnectionFailure" then .failed ("unable to connect to database: " ++ msg)
  else .crashed exc

/-- The main function (lines 160 to 199), shallowly embedded. Steps in
source order: the AnsibleModule constructor validates required
arguments; the pymongo_found flag is checked; the sort parameter is
normalized by _fix_sort_parameter; then the try block connects, looks up
client[database][collection] (whose client-side validation, modelled
from the documented driver behavior, raises InvalidName for an empty
database or collection name before any find runs), runs find, serializes
with json_util (NameError when that name is unbound) and exits 0.
Exceptions from the try block go through the except clause at line 198,
which catches only ConnectionFailure. -/
def runMain (st : ImportState) (p : ModuleParams)
    (conn : ConnOutcome) (find : FindOutcome) : MainResult :=
  match checkRequiredArguments p with
  | .failJson m => .failed m
  | .pyError e => .crashed e
  | .ok _ =>
    if st.pymongo_found = false then .failed "the python pymongo module is required"
    else
      match _fix_sort_parameter st p.sort with
      | .failJson m => .failed m
      | .pyError e => .crashed e
      | .ok _sortNorm =>
        match conn with
        | .connectionFailure m => exceptClause st "ConnectionFailure" m
        | .ok =>
          if p.database.getD "" = "" ∨ p.collection.getD "" = "" then
            exceptClause st "InvalidName" ""
          else
            match find with
            | .connectionFailure m => exceptClause st "ConnectionFailure" m
            | .operationFailure m => exceptClause st "OperationFailure" m
            | .ok docs =>
              if st.json_util_bound = false then exceptClause st "NameError" ""
              else .success (envelope docs) 0

/-- Modelled from the documented semantics of the single driver find
call issued at lines 189 to 193, with all parameters composed into one
query: the filter selects the matching documents, the optional sort
orders them, skip drops that many documents from the front, and limit
truncates unless it is 0, which means unbounded. -/
def findDocs (docs : List BVal) (pred : BVal → Bool)
    (sortLe : Option (BVal → BVal → Bool)) (skip limit : Nat) : List BVal :=
  let matched := docs.filter pred
  let ordered :=
    match sortLe with
    | none => matched
    | some le => matched.mergeSort le
  let afterSkip := ordered.drop skip
  if limit = 0 then afterSkip else afterSkip.take limit

/-- A direction token accepted by _fix_sort_parameter: a string whose
uppercasing is ASCENDING or DESCENDING. -/
def validTok : SortTok → Bool
  | .str s => upperStr s == "ASCENDING" || upperStr s == "DESCENDING"
  | .int _ => false

/-- The replacement performed on an accepted direction token: the
pymongo constant selected by the uppercased word. -/
def normDirection : SortTok → SortTok
  | .str s => if upperStr s = "ASCENDING" then .int ASCENDING else .int DESCENDING
  | t => t

/-- Fixture parameters: both required arguments supplied, every other
parameter left at its default. -/
def demoParams : ModuleParams :=
  { database := some "local", collection := some "startup_log" }

/-- Fixture parameters carrying a sort entry whose direction token ASC
matches neither accepted word. -/
def sortFailParams : ModuleParams :=
  { database := some "local", collection := some "startup_log",
    sort := some [("name", SortTok.str "ASC")] }

/-- Fixture parameters in which both required arguments are supplied as
empty strings. -/
def emptyNameParams : ModuleParams :=
  { database := some "", collection := some "" }

/-- Fixture parameters with the required database argument omitted. -/
def noDbParams : ModuleParams :=
  { database := none, collection := some "startup_log" }

/-- Fixture parameters carrying a sort entry whose direction token is
the integer 1 rather than a string. -/
def intSortParams : ModuleParams :=
  { database := some "local", collection := some "startup_log",
    sort := some [("age", SortTok.int 1)] }

/-- Fixture parameters carrying a correctly spelled sort entry, used to
exercise the legacy import path. -/
def legacySortParams : ModuleParams :=
  { database := some "local", collection := some "startup_log",
    sort := some [("name", SortTok.str "ASCENDING")] }

/-- Fixture result documents, each holding an ObjectId. -/
def demoDocs : List BVal :=
  [ .doc [("_id", .oid "56ab"), ("name", .str "batman")],
    .doc [("_id", .oid "56ac"), ("name", .str "robin")] ]

/-- Fixture filter predicate: keeps only document values. -/
def demoPred : BVal → Bool
  | .doc _ => true
  | _ => false

theorem checkRequired_ok (p : ModuleParams)
    (hdb : p.database.isSome = true) (hcol : p.collection.isSome = true) :
    checkRequiredArguments p = .ok () := by
  obtain ⟨d, hd⟩ := Option.isSome_iff_exists.mp hdb
  obtain ⟨c, hc⟩ := Option.isSome_iff_exists.mp hcol
  simp [checkRequiredArguments, missingRequired, hd, hc]

theorem nameASCENDING_modern : nameASCENDING modernState = .ok (.int ASCENDING) := rfl

theorem nameDESCENDING_modern : nameDESCENDING modernState = .ok (.int DESCENDING) := rfl

/-- C4: with the modern driver imported, both required parameters
supplied and non-empty and a sort parameter that normalizes, a run whose
connection and find both succeed emits exactly the envelope with changed
false and the cursor fully materialized into an extended-JSON encoded
ordered sequence, and exits with code 0. -/
theorem C4_success_envelope (p : ModuleParams) (d c : String) (docs : List BVal)
    (hdb : p.database = some d) (hcol : p.collection = some c)
    (hd : d ≠ "") (hc : c ≠ "")
    (hsort : ∃ out, _fix_sort_parameter modernState p.sort = .ok out) :
    runMain modernState p .ok (.ok docs) =
      .success (.obj [("changed", .bool false), ("result", .arr (encodeExtList docs))]) 0 := by
  obtain ⟨out, hout⟩ := hsort
  have hnames : ¬((some d).getD "" = "" ∨ (some c).getD "" = "") := by simp [hd, hc]
  unfold runMain
  rw [checkRequired_ok p (by rw [hdb]; rfl) (by rw [hcol]; rfl), hout, hdb, hcol]
  rw [if_neg hnames]
  rfl

/-- C4 witness: the success envelope at the fixture input. -/
theorem C4_witness :
    runMain modernState demoParams .ok (.ok demoDocs) =
      .success (.obj [("changed", .bool false), ("result", .arr (encodeExtList demoDocs))]) 0 :=
  C4_success_envelope demoParams "local" "startup_log" demoDocs rfl rfl
    (by decide) (by decide) ⟨none, rfl⟩

/-- C3 (amended): a ConnectionFailure raised while connecting or during
the find call surfaces once as a structured failure carrying the driver
message and no result output; an OperationFailure, by contrast, is not
caught by the except clause at line 198 and propagates as an unhandled
exception rather than as a structured OperationError report. -/
theorem C3_error_surface (p : ModuleParams) (d c : String)
    (hdb : p.database = some d) (hcol : p.collection = some c)
    (hd : d ≠ "") (hc : c ≠ "")
    (hsort : ∃ out, _fix_sort_parameter modernState p.sort = .ok out) :
    (∀ m find, runMain modernState p (.connectionFailure m) find =
        .failed ("unable to connect to database: " ++ m))
    ∧ (∀ m, runMain modernState p .ok (.connectionFailure m) =
        .failed ("unable to connect to database: " ++ m))
    ∧ (∀ m, runMain modernState p .ok (.operationFailure m) = .crashed "OperationFailure") := by
  obtain ⟨out, hout⟩ := hsort
  have hnames : ¬((some d).getD "" = "" ∨ (some c).getD "" = "") := by simp [hd, hc]
  refine ⟨fun m find => ?_, fun m => ?_, fun m => ?_⟩ <;>
    (unfold runMain;
     rw [checkRequired_ok p (by rw [hdb]; rfl) (by rw [hcol]; rfl), hout, hdb, hcol];
     rw [if_neg hnames];
     rfl)

/-- C3 counterexample: at a concrete input an operational failure of the
find call leaves the module as an unhandled exception, not as a
structured failure report, because only ConnectionFailure is caught. -/
theorem C3_counterexample :
    runMain modernState demoParams .ok (.operationFailure "bad filter") =
      .crashed "OperationFailure" := rfl

/-- C3 witness: the structured connection failure at a concrete input. -/
theorem C3_witness :
    runMain modernState demoParams (.connectionFailure "host unreachable") (.ok []) =
      .failed ("unable to connect to database: " ++ "host unreachable") :=
  (C3_error_surface demoParams "local" "startup_log" rfl rfl (by decide) (by decide)
    ⟨none, rfl⟩).1 "host unreachable" (.ok [])

/-- C6 (amended): with the driver library absent the run fails with the
dependency message for every connection outcome, find outcome and sort
parameter, so the check precedes sort normalization and any connection
attempt; it runs, however, only after the AnsibleModule constructor has
validated the required parameters. -/
theorem C6_dependency_check_position (p : ModuleParams)
    (hdb : p.database.isSome = true) (hcol : p.collection.isSome = true) :
    ∀ conn find, runMain absentState p conn find =
      .failed "the python pymongo module is required" := by
  intro conn find
  unfold runMain
  rw [checkRequired_ok p hdb hcol]
  rfl

/-- C6 counterexample: with the driver absent and the database parameter
missing, the reported failure is the missing-argument validation error,
not the dependency error, so the dependency check does not happen before
parameter validation. -/
theorem C6_counterexample :
    runMain absentState noDbParams .ok (.ok []) = .failed "missing required arguments: database"
    ∧ "missing required arguments: database" ≠ "the python pymongo module is required" := by
  constructor
  · unfold runMain
    rw [show checkRequiredArguments noDbParams =
      .failJson "missing required arguments: database" from by decide]
  · decide

/-- C6 witness: the dependency failure fires at a concrete input even
though its sort parameter is invalid, hence before sort normalization. -/
theorem C6_witness :
    runMain absentState sortFailParams .ok (.ok []) =
      .failed "the python pymongo module is required" :=
  C6_dependency_check_position sortFailParams rfl rfl .ok (.ok [])

/-- C5 (amended): a request with the database or the collection
parameter absent fails at argument validation with the missing-required
message, independently of the import state, the connection outcome and
the find outcome, hence before the dependency check and before any
connection attempt; a supplied-but-empty name, however, passes the
presence check, the connection step is reached, and the client-side name
validation of the driver then raises an unhandled InvalidName error
before any find outcome is consulted. -/
theorem C5_missing_required_fail_fast (p : ModuleParams) :
    ((p.database = none ∨ p.collection = none) →
      ∀ st conn find, runMain st p conn find =
        .failed ("missing required arguments: " ++ String.intercalate "," (missingRequired p)))
    ∧ (∀ d c, p.database = some d → p.collection = some c → (d = "" ∨ c = "") →
        (∃ out, _fix_sort_parameter modernState p.sort = .ok out) →
        ∀ find, runMain modernState p .ok find = .crashed "InvalidName") := by
  constructor
  · intro h st conn find
    have hne : ∃ a as, missingRequired p = a :: as := by
      rcases hd : p.database with _ | d
      · exact ⟨"database", if p.collection.isNone then ["collection"] else [],
          by simp [missingRequired, hd]⟩
      · rcases h with h | h
        · rw [hd] at h; cases h
        · exact ⟨"collection", [], by simp [missingRequired, hd, h]⟩
    obtain ⟨a, as, hm⟩ := hne
    unfold runMain checkRequiredArguments
    rw [hm]
  · intro d c hdb hcol hde hsort find
    obtain ⟨out, hout⟩ := hsort
    unfold runMain
    rw [checkRequired_ok p (by rw [hdb]; rfl) (by rw [hcol]; rfl), hout, hdb, hcol]
    have hcond : (some d).getD "" = "" ∨ (some c).getD "" = "" := by simpa using hde
    rw [if_pos hcond]
    rfl

/-- C5 counterexample: both required names supplied as empty strings
pass the presence check, the run reaches the driver step, and crashes
there with an unhandled InvalidName error, so an empty required field
neither yields the missing-required failure nor halts before the
connection step. -/
theorem C5_counterexample :
    runMain modernState emptyNameParams .ok (.ok demoDocs) = .crashed "InvalidName" := rfl

/-- C5 witness: the missing-required failure when database is omitted,
and the InvalidName crash at empty names, unchanged by the find
outcome. -/
theorem C5_witness :
    runMain modernState noDbParams .ok (.ok []) = .failed "missing required arguments: database"
    ∧ runMain modernState emptyNameParams .ok (.connectionFailure "boom") =
        .crashed "InvalidName" := by
  constructor
  · rw [(C5_missing_required_fail_fast noDbParams).1 (Or.inl rfl) modernState .ok (.ok [])]
    rw [show "missing required arguments: " ++
      String.intercalate "," (missingRequired noDbParams) =
      "missing required arguments: database" from by decide]
  · exact (C5_missing_required_fail_fast emptyNameParams).2 "" "" rfl rfl (Or.inl rfl)
      ⟨none, rfl⟩ (.connectionFailure "boom")

/-- C10 (amended): whenever the import block ends with pymongo_found
true in a realizable environment (pymongo itself needs bson), the names
json_util, ASCENDING, DESCENDING and ConnectionFailure are bound as
well, because a successful fallback can only follow a failure of the
final MongoClient import and Python keeps the names imported before the
failing statement; consequently the legacy PyMongo 2.2 path sets
pymongo_found true and runs sort normalization, the query and the
serialization without any NameError, exactly like the modern path. -/
theorem C10_legacy_path_names_bound :
    (∀ env : PyEnv, env.realizable = true → (importState env).pymongo_found = true →
      (importState env).json_util_bound = true
      ∧ (importState env).ascending_bound = true
      ∧ (importState env).descending_bound = true
      ∧ (importState env).connectionFailure_bound = true)
    ∧ legacyState.pymongo_found = true
    ∧ (∀ (p : ModuleParams) (d c : String) (docs : List BVal),
        p.database = some d → p.collection = some c → d ≠ "" → c ≠ "" →
        (∃ out, _fix_sort_parameter legacyState p.sort = .ok out) →
        runMain legacyState p .ok (.ok docs) = .success (envelope docs) 0) := by
  refine ⟨?_, rfl, ?_⟩
  · intro env
    rcases env with ⟨b, pm, mc, cn⟩
    cases b <;> cases pm <;> cases mc <;> cases cn <;> decide
  · intro p d c docs hdb hcol hd hc hsort
    obtain ⟨out, hout⟩ := hsort
    have hnames : ¬((some d).getD "" = "" ∨ (some c).getD "" = "") := by simp [hd, hc]
    unfold runMain
    rw [checkRequired_ok p (by rw [hdb]; rfl) (by rw [hcol]; rfl), hout, hdb, hcol]
    rw [if_neg hnames]
    rfl

/-- C10 counterexample: in the PyMongo 2.2 fallback state the flag is
found true, yet normalization of a correctly spelled sort entry succeeds
with the enum constant and a complete run reaches the success envelope:
neither sort normalization nor serialization raises a NameError on the
legacy path. -/
theorem C10_counterexample :
    legacyState.pymongo_found = true
    ∧ fixSortItems legacyState [("name", SortTok.str "ASCENDING")] =
        .ok [("name", SortTok.int 1)]
    ∧ runMain legacyState legacySortParams .ok (.ok demoDocs) =
        .success (envelope demoDocs) 0 :=
  ⟨rfl, by decide, rfl⟩

/-- C10 witness: a full legacy-path run at the fixture input succeeds
with the envelope. -/
theorem C10_witness :
    runMain legacyState demoParams .ok (.ok demoDocs) = .success (envelope demoDocs) 0 :=
  C10_legacy_path_names_bound.2.2 demoParams "local" "startup_log" demoDocs rfl rfl
    (by decide) (by decide) ⟨none, rfl⟩

theorem fixSortItems_attrError_first_nonstring (st : ImportState)
    (ha : st.ascending_bound = true) (hds : st.descending_bound = true)
    (pre : List (String × SortTok)) (hpre : ∀ x ∈ pre, validTok x.2 = true)
    (f : String) (n : Int) (rest : List (String × SortTok)) :
    fixSortItems st (pre ++ (f, SortTok.int n) :: rest) = .pyError "AttributeError" := by
  induction pre with
  | nil => simp [fixSortItems, pyUpper]
  | cons head tail ih =>
    obtain ⟨g, tok⟩ := head
    have htok : validTok tok = true := hpre (g, tok) (List.mem_cons_self _ _)
    have ihr := ih (fun x hx => hpre x (List.mem_cons_of_mem _ hx))
    cases tok with
    | int m => simp [validTok] at htok
    | str s =>
      have hA : nameASCENDING st = .ok (.int ASCENDING) := by simp [nameASCENDING, ha]
      have hD : nameDESCENDING st = .ok (.int DESCENDING) := by simp [nameDESCENDING, hds]
      simp only [validTok, Bool.or_eq_true, beq_iff_eq] at htok
      have ihr2 : fixSortItems st (tail.append ((f, SortTok.int n) :: rest)) =
          .pyError "AttributeError" := ihr
      simp only [List.cons_append, fixSortItems, pyUpper, hA, hD]
      rcases htok with h1 | h2
      · rw [if_pos h1, ihr2]
      · rw [if_neg (by rw [h2]; decide), if_pos h2, ihr2]

theorem fixSortItems_no_pyError_of_strings (st : ImportState)
    (ha : st.ascending_bound = true) (hds : st.descending_bound = true)
    (items : List (String × SortTok))
    (h : ∀ x ∈ items, ∃ s, x.2 = SortTok.str s) :
    ∀ e, fixSortItems st items ≠ .pyError e := by
  induction items with
  | nil => intro e; simp [fixSortItems]
  | cons head rest ih =>
    obtain ⟨f, tok⟩ := head
    obtain ⟨s, hs⟩ := h (f, tok) (List.mem_cons_self _ _)
    simp only at hs
    subst hs
    have ihr := ih (fun x hx => h x (List.mem_cons_of_mem _ hx))
    intro e
    have hA : nameASCENDING st = .ok (.int ASCENDING) := by simp [nameASCENDING, ha]
    have hD : nameDESCENDING st = .ok (.int DESCENDING) := by simp [nameDESCENDING, hds]
    simp only [fixSortItems, pyUpper, hA, hD]
    by_cases h1 : upperStr s = "ASCENDING"
    · rw [if_pos h1]
      cases hr : fixSortItems st rest with
      | ok tail => simp
      | failJson m => simp
      | pyError e2 => exact absurd hr (ihr e2)
    · rw [if_neg h1]
      by_cases h2 : upperStr s = "DESCENDING"
      · rw [if_pos h2]
        cases hr : fixSortItems st rest with
        | ok tail => simp
        | failJson m => simp
        | pyError e2 => exact absurd hr (ihr e2)
      · rw [if_neg h2]
        simp

/-- C9 (amended): a sort specification whose first non-accepted entry
carries a non-string direction token (every earlier entry being a valid
string token) crashes the run with an unhandled AttributeError (upper
called on a non-string) instead of the structured invalid-direction
failure; and the normalization loop raises no Python error at all when
every direction token is a string. -/
theorem C9_nonstring_token_attribute_error :
    (∀ (p : ModuleParams) (pre rest : List (String × SortTok)) (f : String) (n : Int)
        (conn : ConnOutcome) (find : FindOutcome),
        p.database.isSome = true → p.collection.isSome = true →
        p.sort = some (pre ++ (f, SortTok.int n) :: rest) →
        (∀ x ∈ pre, validTok x.2 = true) →
        runMain modernState p conn find = .crashed "AttributeError")
    ∧ ∀ items : List (String × SortTok), (∀ x ∈ items, ∃ s, x.2 = SortTok.str s) →
        ∀ e, fixSortItems modernState items ≠ .pyError e := by
  constructor
  · intro p pre rest f n conn find hdb hcol hsort hpre
    have hfix : _fix_sort_parameter modernState p.sort = .pyError "AttributeError" := by
      rw [hsort]
      simp only [_fix_sort_parameter]
      rw [fixSortItems_attrError_first_nonstring modernState rfl rfl pre hpre f n rest]
    unfold runMain
    rw [checkRequired_ok p hdb hcol, hfix]
    rfl
  · exact fun items h => fixSortItems_no_pyError_of_strings modernState rfl rfl items h

/-- C9 counterexample: a sort specification containing a non-string
token does not always crash with AttributeError: when an invalid string
token precedes it, the structured invalid-sort failure fires first and
the upper call on the non-string is never reached. -/
theorem C9_counterexample :
    fixSortItems modernState [("a", SortTok.str "ASC"), ("b", SortTok.int 1)] =
      .failJson (invalidSortMsg (SortTok.str "ASC")) := by decide

/-- C9 witness: the crash at the concrete integer token, and the absence
of a Python error at a concrete all-string sort specification. -/
theorem C9_witness :
    runMain modernState intSortParams .ok (.ok []) = .crashed "AttributeError"
    ∧ fixSortItems modernState [("name", SortTok.str "ascending")] ≠ .pyError "AttributeError" :=
  ⟨C9_nonstring_token_attribute_error.1 intSortParams [] [] "age" 1 .ok (.ok [])
      rfl rfl rfl (fun x hx => absurd hx (List.not_mem_nil x)),
   C9_nonstring_token_attribute_error.2 [("name", SortTok.str "ascending")]
     (fun x hx => by
       simp only [List.mem_singleton] at hx
       subst hx
       exact ⟨"ascending", rfl⟩) "AttributeError"⟩

theorem fixSortItems_ok_of_valid (st : ImportState)
    (ha : st.ascending_bound = true) (hds : st.descending_bound = true)
    (items : List (String × SortTok)) (h : ∀ x ∈ items, validTok x.2 = true) :
    fixSortItems st items = .ok (items.map fun it => (it.1, normDirection it.2)) := by
  induction items with
  | nil => rfl
  | cons head rest ih =>
    obtain ⟨f, tok⟩ := head
    have htok : validTok tok = true := h (f, tok) (List.mem_cons_self _ _)
    have hrest := ih (fun x hx => h x (List.mem_cons_of_mem _ hx))
    cases tok with
    | int n => simp [validTok] at htok
    | str s =>
      have hA : nameASCENDING st = .ok (.int ASCENDING) := by simp [nameASCENDING, ha]
      have hD : nameDESCENDING st = .ok (.int DESCENDING) := by simp [nameDESCENDING, hds]
      simp only [validTok, Bool.or_eq_true, beq_iff_eq] at htok
      simp only [fixSortItems, pyUpper, hA, hD]
      rcases htok with h1 | h2
      · rw [if_pos h1, hrest]
        simp [normDirection, h1]
      · have h1 : upperStr s ≠ "ASCENDING" := by
          rw [h2]; decide
        rw [if_neg h1, if_pos h2, hrest]
        simp [normDirection, if_neg h1]

/-- C1: a null sort specification is returned unchanged, and a sort
specification all of whose direction tokens case-insensitively spell
ASCENDING or DESCENDING is normalized fieldwise: each token is replaced
by the pymongo constant selected by its uppercased word (so all casings
of the same word give the same constant), every field keeps its place,
and the output sequence preserves the input field order exactly. -/
theorem C1_normalize_sort :
    _fix_sort_parameter modernState none = .ok none
    ∧ ∀ items : List (String × SortTok), (∀ x ∈ items, validTok x.2 = true) →
        _fix_sort_parameter modernState (some items) =
          .ok (some (items.map fun it => (it.1, normDirection it.2))) := by
  refine ⟨rfl, fun items h => ?_⟩
  simp only [_fix_sort_parameter, fixSortItems_ok_of_valid modernState rfl rfl items h]

/-- C1 witness: two differently cased tokens at a concrete input are
normalized to the two constants with the field order kept. -/
theorem C1_witness :
    _fix_sort_parameter modernState
        (some [("name", SortTok.str "Ascending"), ("version", SortTok.str "descending")]) =
      .ok (some [("name", SortTok.int 1), ("version", SortTok.int (-1))]) := by
  rw [C1_normalize_sort.2
    [("name", SortTok.str "Ascending"), ("version", SortTok.str "descending")] (by decide)]
  decide

theorem fixSortItems_failJson_inv (items : List (String × SortTok)) (m : String)
    (h : fixSortItems modernState items = .failJson m) :
    ∃ f s, (f, SortTok.str s) ∈ items ∧ upperStr s ≠ "ASCENDING" ∧
      upperStr s ≠ "DESCENDING" ∧ m = invalidSortMsg (SortTok.str s) := by
  induction items generalizing m with
  | nil => simp [fixSortItems] at h
  | cons head rest ih =>
    obtain ⟨f, tok⟩ := head
    cases tok with
    | int n => simp [fixSortItems, pyUpper] at h
    | str s =>
      simp only [fixSortItems, pyUpper, nameASCENDING_modern, nameDESCENDING_modern] at h
      by_cases h1 : upperStr s = "ASCENDING"
      · rw [if_pos h1] at h
        cases hr : fixSortItems modernState rest with
        | ok tail => rw [hr] at h; simp at h
        | failJson m2 =>
          rw [hr] at h
          simp only [PyOutcome.failJson.injEq] at h
          obtain ⟨f2, s2, hmem, ha, hds, hm⟩ := ih m2 hr
          exact ⟨f2, s2, List.mem_cons_of_mem _ hmem, ha, hds, h ▸ hm⟩
        | pyError e => rw [hr] at h; simp at h
      · rw [if_neg h1] at h
        by_cases h2 : upperStr s = "DESCENDING"
        · rw [if_pos h2] at h
          cases hr : fixSortItems modernState rest with
          | ok tail => rw [hr] at h; simp at h
          | failJson m2 =>
            rw [hr] at h
            simp only [PyOutcome.failJson.injEq] at h
            obtain ⟨f2, s2, hmem, ha, hds, hm⟩ := ih m2 hr
            exact ⟨f2, s2, List.mem_cons_of_mem _ hmem, ha, hds, h ▸ hm⟩
          | pyError e => rw [hr] at h; simp at h
        · rw [if_neg h2] at h
          simp only [PyOutcome.failJson.injEq] at h
          exact ⟨f, s, List.mem_cons_self _ _, h1, h2, h.symm⟩

/-- C2: when normalization of the sort parameter fails, the run reports
exactly that failure whatever the connection and find outcomes (so no
connection step is reached), and the failure message is the
invalid-sort-parameter message carrying an offending literal token of
the input, one whose uppercasing is neither accepted word. -/
theorem C2_invalid_sort_fail_fast (p : ModuleParams) (m : String)
    (hdb : p.database.isSome = true) (hcol : p.collection.isSome = true)
    (hfail : _fix_sort_parameter modernState p.sort = .failJson m) :
    (∀ conn find, runMain modernState p conn find = .failed m)
    ∧ ∃ items f s, p.sort = some items ∧ (f, SortTok.str s) ∈ items ∧
        upperStr s ≠ "ASCENDING" ∧ upperStr s ≠ "DESCENDING" ∧
        m = invalidSortMsg (SortTok.str s) := by
  constructor
  · intro conn find
    unfold runMain
    rw [checkRequired_ok p hdb hcol, hfail]
    rfl
  · cases hs : p.sort with
    | none => rw [hs] at hfail; simp [_fix_sort_parameter] at hfail
    | some items =>
      rw [hs] at hfail
      simp only [_fix_sort_parameter] at hfail
      cases hr : fixSortItems modernState items with
      | ok o => rw [hr] at hfail; simp at hfail
      | failJson m2 =>
        rw [hr] at hfail
        simp only [PyOutcome.failJson.injEq] at hfail
        obtain ⟨f, s, hmem, h1, h2, hm⟩ := fixSortItems_failJson_inv items m2 hr
        exact ⟨items, f, s, rfl, hmem, h1, h2, hfail ▸ hm⟩
      | pyError e => rw [hr] at hfail; simp at hfail

/-- C2 witness: the token ASC at a concrete input yields the structured
invalid-sort failure carrying ASC, with connection and find outcomes
never consulted. -/
theorem C2_witness :
    runMain modernState sortFailParams .ok (.ok demoDocs) =
      .failed (invalidSortMsg (SortTok.str "ASC")) :=
  (C2_invalid_sort_fail_fast sortFailParams (invalidSortMsg (SortTok.str "ASC"))
    rfl rfl (by decide)).1 .ok (.ok demoDocs)

/-- C7: in the modelled single find call composing filter, sort, skip
and limit, a limit of 0 is unbounded, so the result length is the
matching-set size minus the skip; and a skip at least the matching-set
size yields the empty sequence rather than an error, for every limit. -/
theorem C7_find_composition (docs : List BVal) (pred : BVal → Bool)
    (sortLe : Option (BVal → BVal → Bool)) (skip limit : Nat) :
    (findDocs docs pred sortLe skip 0).length = (docs.filter pred).length - skip
    ∧ ((docs.filter pred).length ≤ skip → findDocs docs pred sortLe skip limit = []) := by
  cases sortLe with
  | none =>
    constructor
    · simp [findDocs]
    · intro h
      have hdrop : (docs.filter pred).drop skip = [] := List.drop_eq_nil_of_le h
      simp [findDocs, hdrop]
  | some le =>
    have hlen : ((docs.filter pred).mergeSort le).length = (docs.filter pred).length :=
      (List.mergeSort_perm _ le).length_eq
    constructor
    · simp [findDocs, hlen]
    · intro h
      have hdrop : ((docs.filter pred).mergeSort le).drop skip = [] :=
        List.drop_eq_nil_of_le (by rw [hlen]; exact h)
      simp [findDocs, hdrop]

/-- C7 witness: on the fixture collection, skipping one of the two
matching documents leaves a result of length one, and skipping five
yields the empty sequence even with a nonzero limit. -/
theorem C7_witness :
    (findDocs demoDocs demoPred none 1 0).length = (demoDocs.filter demoPred).length - 1
    ∧ findDocs demoDocs demoPred none 5 3 = [] :=
  ⟨(C7_find_composition demoDocs demoPred none 1 0).1,
   (C7_find_composition demoDocs demoPred none 5 3).2 (by decide)⟩

theorem isOidForm_encodeExtFields (fs : List (String × BVal)) (h : notOidShape fs = true) :
    isOidForm (encodeExtFields fs) = none := by
  match fs with
  | [] => rfl
  | (k, v) :: (k2, v2) :: rest =>
    simp only [encodeExtFields]
    rfl
  | [(k, v)] =>
    cases v with
    | str s =>
      simp only [notOidShape, bne_iff_ne, ne_eq] at h
      simp only [encodeExtFields, encodeExt]
      simp [isOidForm, h]
    | int n => simp only [encodeExtFields, encodeExt]; rfl
    | bool b => simp only [encodeExtFields, encodeExt]; rfl
    | oid h2 => simp only [encodeExtFields, encodeExt]; rfl
    | arr xs => simp only [encodeExtFields, encodeExt]; rfl
    | doc fs2 => simp only [encodeExtFields, encodeExt]; rfl

mutual

theorem decodeExt_encodeExt (v : BVal) (h : wfB v = true) : decodeExt (encodeExt v) = v := by
  match v with
  | .str s => simp only [encodeExt, decodeExt]
  | .int n => simp only [encodeExt, decodeExt]
  | .bool b => simp only [encodeExt, decodeExt]
  | .oid h0 =>
    simp only [encodeExt, decodeExt]
    simp [isOidForm]
  | .arr xs =>
    simp only [wfB] at h
    simp only [encodeExt, decodeExt]
    rw [decodeExtList_encodeExtList xs h]
  | .doc fs =>
    simp only [wfB, Bool.and_eq_true] at h
    simp only [encodeExt, decodeExt]
    rw [isOidForm_encodeExtFields fs h.1]
    rw [decodeExtFields_encodeExtFields fs h.2]

theorem decodeExtList_encodeExtList (vs : List BVal) (h : wfListB vs = true) :
    decodeExtList (encodeExtList vs) = vs := by
  match vs with
  | [] => rfl
  | v :: rest =>
    simp only [wfListB, Bool.and_eq_true] at h
    simp only [encodeExtList, decodeExtList]
    rw [decodeExt_encodeExt v h.1, decodeExtList_encodeExtList rest h.2]

theorem decodeExtFields_encodeExtFields (fs : List (String × BVal)) (h : wfFieldsB fs = true) :
    decodeExtFields (encodeExtFields fs) = fs := by
  match fs with
  | [] => rfl
  | (k, v) :: rest =>
    simp only [wfFieldsB, Bool.and_eq_true] at h
    simp only [encodeExtFields, decodeExtFields]
    rw [decodeExt_encodeExt v h.1, decodeExtFields_encodeExtFields rest h.2]

end

/-- C8: serializing a result sequence with the extended JSON encoder and
parsing it back with the extended decoder returns the original sequence,
ObjectIds included, provided no literal document in it spells the
reserved tagged ObjectId form. -/
theorem C8_extended_json_roundtrip (docs : List BVal) (h : wfListB docs = true) :
    decodeExtList (encodeExtList docs) = docs :=
  decodeExtList_encodeExtList docs h

/-- C8 witness: the round trip on the fixture documents, each of which
contains an ObjectId. -/
theorem C8_witness :
    decodeExtList (encodeExtList demoDocs) = demoDocs :=
  C8_extended_json_roundtrip demoDocs (by decide)
